import Mathlib

/-!
Shallow embedding of the result-projection, export, search-filter,
result-conversion and download-retry logic of the PDF-extraction
front-end (app/page.tsx of the LDB-Reactjs repository).

JS objects holding extraction data are modelled as association lists in
property-insertion order; JS property lookup returns the first binding.
JS logical-or chains treat both an absent property and the empty string
as falsy, which the combinator orF reproduces.
-/

/-- An extraction record (the ExtractedData interface): a JS object
mapping field names to string values, in property-insertion order. -/
abbrev ExtractedData := List (String × String)

/-- A projected table row or export record: a JS object in insertion order. -/
abbrev Row := List (String × String)

/-- JS property lookup on an object: the first binding of the key, if any. -/
def jsGet (o : Row) (k : String) : Option String :=
  (o.find? (fun p => p.1 == k)).map (fun p => p.2)

/-- JS logical-or chaining of a possibly-absent string with a default,
as in a || b: undefined and the empty string are falsy. -/
def orF : Option String → String → String
  | some s, d => if s = "" then d else s
  | none, d => d

/-- Auxiliary loop for JS String.split with separator comma. -/
def splitCommaAux : List Char → List Char → List String
  | [], acc => [String.mk acc.reverse]
  | c :: cs, acc =>
    if c = ',' then String.mk acc.reverse :: splitCommaAux cs []
    else splitCommaAux cs (c :: acc)

/-- JS s.split with separator comma. -/
def splitComma (s : String) : List String := splitCommaAux s.data []

/-- ASCII whitespace stripped by JS String.trim (restricted to the
characters that occur in this application's data). -/
def isJsWs (c : Char) : Bool := c == ' ' || c == '\t' || c == '\n' || c == '\r'

/-- JS s.trim. -/
def jsTrim (s : String) : String :=
  String.mk (((s.data.dropWhile isJsWs).reverse.dropWhile isJsWs).reverse)

/-- JS s.toLowerCase, character-wise. -/
def jsToLower (s : String) : String := String.mk (s.data.map Char.toLower)

/-- JS s.includes pat: substring containment. -/
def containsSub (s pat : String) : Bool :=
  (List.range (s.data.length + 1)).any (fun i => pat.data.isPrefixOf (s.data.drop i))

/-- Status of one ResultItem. -/
inductive RStatus where
  | success
  | error
deriving DecidableEq, BEq, Repr

/-- The ResultItem interface: one entry per submitted file. -/
structure ResultItem where
  filename : String
  status : RStatus
  data : Option ExtractedData := none
  error : Option String := none
deriving DecidableEq, Repr

/-- The filter used throughout the source for rows that carry data:
r.status is success and r.data is attached. -/
def succWithData (r : ResultItem) : Bool :=
  r.status == RStatus.success && r.data.isSome

/-- The download_links field of the API response. -/
structure DownloadLinks where
  excel : Option String := none
  zip : Option String := none
deriving DecidableEq, Repr

/-- The ApiResponse interface (fields relevant to the embedded logic). -/
structure ApiResponse where
  success : Bool
  timestamp : String
  total_files : Nat
  processed_files : Nat
  failed_files : Option Nat := none
  results : Option (List ResultItem) := none
  extraction_data : Option (List ExtractedData) := none
  renamed_files : Option (List (String × String)) := none
  download_links : Option DownloadLinks := none
deriving DecidableEq, Repr

/-- The default generic column profile returned by getTableColumns for an
unrecognized document-type tag. -/
def defaultColumns : List String :=
  ["Name", "Place of Birth", "Date of Birth", "Passport No", "Passport Expiry",
   "Date Issue", "Document Type"]

/-- The six recognized document-type tags. -/
def knownTags : List String :=
  ["SKTT", "EVLN", "ITAS", "ITK", "Notifikasi", "DKPTKA"]

/-- The switch on documentType inside getTableColumns: the per-tag display
column profile, with the default generic profile for unrecognized tags. -/
def resolveColumns (documentType : String) : List String :=
  if documentType = "SKTT" then
    ["Name", "NIK", "Place of Birth", "Date of Birth", "Gender", "Nationality",
     "Occupation", "Address", "KITAS/KITAP", "Passport Expiry", "Date Issue",
     "Document Type"]
  else if documentType = "EVLN" then
    ["Name", "Place of Birth", "Date of Birth", "Passport No", "Passport Expiry",
     "Date Issue", "Document Type"]
  else if documentType = "ITAS" ∨ documentType = "ITK" then
    ["Name", "Permit Number", "Place & Date of Birth", "Passport Number",
     "Passport Expiry", "Nationality", "Gender", "Address", "Occupation",
     "Date Issue", "Document Type"]
  else if documentType = "Notifikasi" then
    ["Nomor Keputusan", "Nama TKA", "Tempat/Tanggal Lahir", "Kewarganegaraan",
     "Alamat Tempat Tinggal", "Nomor Paspor", "Jabatan", "Lokasi Kerja",
     "Berlaku", "Date Issue", "Document Type"]
  else if documentType = "DKPTKA" then
    ["Nama Pemberi Kerja", "Alamat", "No Telepon", "Email", "Nama TKA",
     "Tempat/Tanggal Lahir", "Nomor Paspor", "Kewarganegaraan", "Jabatan",
     "Lokasi Kerja", "Kode Billing Pembayaran", "DKPTKA", "Document Type"]
  else defaultColumns

/-- The full getTableColumns function, including its guards on the held
results state: an absent result set, an empty result list, or a result list
with no successful item yields the empty column list. -/
def getTableColumns (results : Option ApiResponse) (documentType : String) : List String :=
  match results with
  | none => []
  | some res =>
    match res.results with
    | none => []
    | some items =>
      if items.length = 0 then []
      else if (items.find? succWithData).isSome then resolveColumns documentType
      else []

/-- The table row object built by getTableData for one successful item:
the keys index and filename followed by the record's own fields. A base key
is omitted from the front when the record itself binds it, matching the
override semantics of the JS object spread used in the source. -/
def rowOf (i : Nat) (fn : String) (d : ExtractedData) : Row :=
  (if d.any (fun p => p.1 == "index") then [] else [("index", toString i)]) ++
    ((if d.any (fun p => p.1 == "filename") then [] else [("filename", fn)]) ++ d)

/-- getTableData: one row object per successful result with data, indexed in
filtered order. -/
def getTableData (items : List ResultItem) : List Row :=
  (items.filter succWithData).enum.map
    (fun p => rowOf p.1 p.2.filename (p.2.data.getD []))

/-- A rendered table cell: the row's value at the column name, with the
dash placeholder for an absent or empty value. -/
def displayValue (row : Row) (c : String) : String := orF (jsGet row c) "-"

/-- The displayed row mapping for one record under a document type: each
resolved column paired with its rendered cell. -/
def projectRow (i : Nat) (fn : String) (d : ExtractedData) (documentType : String) :
    List (String × String) :=
  (resolveColumns documentType).map (fun c => (c, displayValue (rowOf i fn d) c))

/-- The search predicate of the results table: an empty query keeps every
row; otherwise some stringified field value of the row object must contain
the query, case-insensitively. -/
def rowMatches (q : String) (row : Row) : Bool :=
  (q == "") || (row.map (fun p => p.2)).any
    (fun v => containsSub (jsToLower v) (jsToLower q))

/-- The results-table search filter applied to the projected rows. -/
def filterBySearch (rows : List Row) (q : String) : List Row :=
  rows.filter (rowMatches q)

/-- Modelled from the spec for comparison with the code: a search predicate
over the stringified value of every column in the row including the
filename, but not the numeric row index. -/
def specRowMatches (q : String) (row : Row) : Bool :=
  (q == "") || ((row.filter (fun p => !(p.1 == "index"))).map (fun p => p.2)).any
    (fun v => containsSub (jsToLower v) (jsToLower q))

/-- Modelled from the spec for comparison with the code: filterBySearch as
the spec words it, matching columns and filename only. -/
def specFilterBySearch (rows : List Row) (q : String) : List Row :=
  rows.filter (specRowMatches q)

/-- The per-row export record built by downloadAsExcel for every document
type other than DKPTKA, with the fields in source order. -/
def genericExportRecord (documentType filename : String) (no : Nat) (d : ExtractedData) : Row :=
  [ ("No", toString no),
    ("Filename", filename),
    ("Document Type", orF (jsGet d "Jenis Dokumen") documentType),
    ("Name", orF (jsGet d "Name") (orF (jsGet d "Nama TKA") "")),
    ("Place of Birth",
      orF (jsGet d "Place of Birth")
        (orF ((jsGet d "Place & Date of Birth").map (fun s => (splitComma s).headD "")) "")),
    ("Date of Birth",
      orF (jsGet d "Date of Birth")
        (orF ((jsGet d "Place & Date of Birth").bind
            (fun s => ((splitComma s).get? 1).map jsTrim))
          (orF (jsGet d "Tempat/Tanggal Lahir") ""))),
    ("Passport No",
      orF (jsGet d "Passport No")
        (orF (jsGet d "Passport Number") (orF (jsGet d "Nomor Paspor") ""))),
    ("Passport Expiry", orF (jsGet d "Passport Expiry") ""),
    ("Date Issue", orF (jsGet d "Date Issue") ""),
    ("NIK", orF (jsGet d "NIK") ""),
    ("Nationality", orF (jsGet d "Nationality") (orF (jsGet d "Kewarganegaraan") "")),
    ("Gender", orF (jsGet d "Jenis Kelamin") (orF (jsGet d "Gender") "")),
    ("Address", orF (jsGet d "Address") (orF (jsGet d "Alamat Tempat Tinggal") "")),
    ("Occupation", orF (jsGet d "Occupation") (orF (jsGet d "Jabatan") "")),
    ("Permit Number", orF (jsGet d "Permit Number") ""),
    ("Stay Permit Expiry", orF (jsGet d "Stay Permit Expiry") ""),
    ("Nomor Keputusan", orF (jsGet d "Nomor Keputusan") ""),
    ("Lokasi Kerja", orF (jsGet d "Lokasi Kerja") ""),
    ("Berlaku", orF (jsGet d "Berlaku") "") ]

/-- The per-row export record built by downloadAsExcel for DKPTKA. -/
def dkptkaExportRecord (documentType filename : String) (no : Nat) (d : ExtractedData) : Row :=
  [ ("No", toString no),
    ("Filename", filename),
    ("Document Type", orF (jsGet d "Jenis Dokumen") documentType),
    ("Nama Pemberi Kerja", orF (jsGet d "Nama Pemberi Kerja") ""),
    ("Alamat", orF (jsGet d "Alamat") ""),
    ("No Telepon", orF (jsGet d "No Telepon") ""),
    ("Email", orF (jsGet d "Email") ""),
    ("Nama TKA", orF (jsGet d "Nama TKA") ""),
    ("Tempat/Tanggal Lahir", orF (jsGet d "Tempat/Tanggal Lahir") ""),
    ("Nomor Paspor", orF (jsGet d "Nomor Paspor") ""),
    ("Kewarganegaraan", orF (jsGet d "Kewarganegaraan") ""),
    ("Jabatan", orF (jsGet d "Jabatan") ""),
    ("Lokasi Kerja", orF (jsGet d "Lokasi Kerja") ""),
    ("Kode Billing Pembayaran", orF (jsGet d "Kode Billing Pembayaran") ""),
    ("DKPTKA", orF (jsGet d "DKPTKA") "") ]

/-- Dispatch on the document type, as in downloadAsExcel. -/
def exportRecord (documentType filename : String) (no : Nat) (d : ExtractedData) : Row :=
  if documentType = "DKPTKA" then dkptkaExportRecord documentType filename no d
  else genericExportRecord documentType filename no d

/-- The excelData array of downloadAsExcel: one export record per successful
result with data, numbered from one in filtered order. -/
def buildExportRecords (items : List ResultItem) (documentType : String) : List Row :=
  (items.filter succWithData).enum.map
    (fun p => exportRecord documentType p.2.filename (p.1 + 1) (p.2.data.getD []))

/-- The CSV header row keys: the keys of the first export record, or none. -/
def csvHeaders (records : List Row) : List String :=
  (records.headD []).map (fun p => p.1)

/-- One quoted CSV field: the record's value at the header key, or empty. -/
def csvField (row : Row) (h : String) : String := "\"" ++ orF (jsGet row h) "" ++ "\""

/-- The CSV text assembled by downloadAsExcel: the joined header row
followed by one joined line per export record. -/
def csvOfRecords (records : List Row) : String :=
  String.intercalate "\n"
    (String.intercalate "," (csvHeaders records) ::
      records.map (fun row => String.intercalate "," ((csvHeaders records).map (csvField row))))

/-- The complete CSV export of downloadAsExcel for a batch. -/
def downloadAsExcelCsv (items : List ResultItem) (documentType : String) : String :=
  csvOfRecords (buildExportRecords items documentType)

/-- The conversion of extraction_data into ResultItems inside handleSubmit:
filename from the Source_File field, then the submitted file name at the
same position, then a numbered placeholder. -/
def convertResults (eds : List ExtractedData) (fileNames : List String) : List ResultItem :=
  eds.enum.map (fun p =>
    { filename := orF (jsGet p.2 "Source_File")
        (orF (fileNames.get? p.1) ("File " ++ toString (p.1 + 1))),
      status := RStatus.success,
      data := some p.2,
      error := none })

/-- The result-storing step of handleSubmit: when extraction_data is present
the results field is replaced by the converted items (the rename and
non-rename branches of the source are literally identical); otherwise the
response is stored unchanged. All other fields are spread through. -/
def storeResults (data : ApiResponse) (fileNames : List String)
    (enableFileRename : Bool) : ApiResponse :=
  match data.extraction_data with
  | some eds =>
    if enableFileRename then { data with results := some (convertResults eds fileNames) }
    else { data with results := some (convertResults eds fileNames) }
  | none => data

/-- The batch-level sanity invariant stated by the spec. -/
def batchInvariant (d : ApiResponse) : Prop :=
  d.processed_files + d.failed_files.getD 0 ≤ d.total_files

/-- Outcome of one fetch attempt of an artifact download. -/
inductive FetchOutcome where
  | ok (blobSize : Nat)
  | httpError (status : Nat) (body : String)
  | abortError
  | networkError
deriving DecidableEq, Repr

/-- Result surfaced to the user by a download function. -/
inductive DownloadResult where
  | success (blobSize : Nat)
  | failure (message : String)
deriving DecidableEq, Repr

/-- The message of a thrown HTTP error, as built in the source. -/
def httpMsg (status : Nat) (body : String) : String :=
  "HTTP " ++ toString status ++ ": " ++ body

/-- The message classified for an abort-signal timeout. -/
def timeoutMsg : String := "Download timed out. Please try again."

/-- The message classified for a fetch-level transport error. -/
def networkMsg : String := "Network error. Please check your connection."

/-- The empty-blob error message of downloadRenamedZip. -/
def zipEmptyMsg : String := "Downloaded file is empty"

/-- The empty-blob error message of downloadExcelFromBackend. -/
def excelEmptyMsg : String := "Downloaded Excel file is empty"

/-- The retry classification of the catch block: the error message contains
404 or Network as a substring. -/
def retryable (msg : String) : Bool := containsSub msg "404" || containsSub msg "Network"

/-- One download call with its bounded retry recursion, shared by
downloadRenamedZip and downloadExcelFromBackend: the outcome of attempt
number rc is consumed; a 404 response with retry budget left retries after
3000 ms, any other failure whose message is classified retryable retries
after 2000 ms, and otherwise the failure is surfaced as terminal. Returns
the surfaced result, the number of fetch attempts made, and the delays
slept between attempts. -/
def runDownload (emptyMsg : String) (outcomes : Nat → FetchOutcome) (rc : Nat) :
    DownloadResult × Nat × List Nat :=
  match outcomes rc with
  | FetchOutcome.ok size =>
    if size = 0 then
      if h : rc < 2 then
        if retryable emptyMsg then
          let r := runDownload emptyMsg outcomes (rc + 1)
          (r.1, r.2.1 + 1, 2000 :: r.2.2)
        else (DownloadResult.failure emptyMsg, 1, [])
      else (DownloadResult.failure emptyMsg, 1, [])
    else (DownloadResult.success size, 1, [])
  | FetchOutcome.httpError status body =>
    if h : rc < 2 then
      if status = 404 then
        let r := runDownload emptyMsg outcomes (rc + 1)
        (r.1, r.2.1 + 1, 3000 :: r.2.2)
      else if retryable (httpMsg status body) then
        let r := runDownload emptyMsg outcomes (rc + 1)
        (r.1, r.2.1 + 1, 2000 :: r.2.2)
      else (DownloadResult.failure (httpMsg status body), 1, [])
    else (DownloadResult.failure (httpMsg status body), 1, [])
  | FetchOutcome.abortError =>
    if h : rc < 2 then
      if retryable timeoutMsg then
        let r := runDownload emptyMsg outcomes (rc + 1)
        (r.1, r.2.1 + 1, 2000 :: r.2.2)
      else (DownloadResult.failure timeoutMsg, 1, [])
    else (DownloadResult.failure timeoutMsg, 1, [])
  | FetchOutcome.networkError =>
    if h : rc < 2 then
      if retryable networkMsg then
        let r := runDownload emptyMsg outcomes (rc + 1)
        (r.1, r.2.1 + 1, 2000 :: r.2.2)
      else (DownloadResult.failure networkMsg, 1, [])
    else (DownloadResult.failure networkMsg, 1, [])
termination_by 2 - rc
decreasing_by all_goals omega

/-- downloadRenamedZip as a function of the attempt outcomes. -/
def downloadRenamedZip (outcomes : Nat → FetchOutcome) : DownloadResult × Nat × List Nat :=
  runDownload zipEmptyMsg outcomes 0

/-- downloadExcelFromBackend as a function of the attempt outcomes. -/
def downloadExcelFromBackend (outcomes : Nat → FetchOutcome) : DownloadResult × Nat × List Nat :=
  runDownload excelEmptyMsg outcomes 0

/-- Whether a failed attempt outcome is classified by the source as worth an
automatic retry: an empty blob only if the empty-blob message matches the
classifier, an HTTP error by its assembled message, a timeout by the
timeout message, a transport error by the network message. -/
def retryEligible (emptyMsg : String) (o : FetchOutcome) : Bool :=
  match o with
  | FetchOutcome.ok size => decide (size = 0) && retryable emptyMsg
  | FetchOutcome.httpError status body => retryable (httpMsg status body)
  | FetchOutcome.abortError => retryable timeoutMsg
  | FetchOutcome.networkError => retryable networkMsg

/-- The retry contract of a download call: at most three fetch attempts,
exactly one more attempt than the number of inter-attempt delays, every
delay one of the two fixed constants, and every attempt that was followed
by another one had a retry-eligible outcome. -/
def RetrySpec (emptyMsg : String) (outcomes : Nat → FetchOutcome)
    (res : DownloadResult × Nat × List Nat) : Prop :=
  res.2.1 ≤ 3 ∧
  res.2.2.length + 1 = res.2.1 ∧
  (∀ d ∈ res.2.2, d = 2000 ∨ d = 3000) ∧
  (∀ i, i + 1 < res.2.1 → retryEligible emptyMsg (outcomes i) = true)

/-- The retry contract of the download recursion entered at retry count rc:
counting attempts already consumed, at most three attempts happen in total,
the delay list is one shorter than the attempt count, every delay is one of
the two fixed constants, and every attempt followed by another one had a
retry-eligible outcome. -/
def SpecFrom (e : String) (o : Nat → FetchOutcome) (rc : Nat) : Prop :=
  (runDownload e o rc).2.1 + rc ≤ 3 ∧
  (runDownload e o rc).2.2.length + 1 = (runDownload e o rc).2.1 ∧
  (∀ d ∈ (runDownload e o rc).2.2, d = 2000 ∨ d = 3000) ∧
  (∀ i, rc ≤ i → i + 1 < rc + (runDownload e o rc).2.1 → retryEligible e (o i) = true)

/-- The export columns of the generic export record that are resolved from
the extraction record itself (all fields except No, Filename and
Document Type). -/
def genericDataColumns : List String :=
  ["Name", "Place of Birth", "Date of Birth", "Passport No", "Passport Expiry",
   "Date Issue", "NIK", "Nationality", "Gender", "Address", "Occupation",
   "Permit Number", "Stay Permit Expiry", "Nomor Keputusan", "Lokasi Kerja", "Berlaku"]

/-- The record keys consulted, in priority order, by the generic export
record's resolution chain for each data column. -/
def genericCandidates (c : String) : List String :=
  if c = "Name" then ["Name", "Nama TKA"]
  else if c = "Place of Birth" then ["Place of Birth", "Place & Date of Birth"]
  else if c = "Date of Birth" then
    ["Date of Birth", "Place & Date of Birth", "Tempat/Tanggal Lahir"]
  else if c = "Passport No" then ["Passport No", "Passport Number", "Nomor Paspor"]
  else if c = "Nationality" then ["Nationality", "Kewarganegaraan"]
  else if c = "Gender" then ["Jenis Kelamin", "Gender"]
  else if c = "Address" then ["Address", "Alamat Tempat Tinggal"]
  else if c = "Occupation" then ["Occupation", "Jabatan"]
  else [c]

/-- The primary (first-consulted) record key of a generic export column. -/
def genericPrimary (c : String) : String := (genericCandidates c).headD c

/-- The export columns of the DKPTKA export record resolved from the
record; each consults exactly the key equal to its own name. -/
def dkptkaDataColumns : List String :=
  ["Nama Pemberi Kerja", "Alamat", "No Telepon", "Email", "Nama TKA",
   "Tempat/Tanggal Lahir", "Nomor Paspor", "Kewarganegaraan", "Jabatan",
   "Lokasi Kerja", "Kode Billing Pembayaran", "DKPTKA"]

/-- The EVLN fallback-priority example record of the spec. -/
def evlnExample : ExtractedData := [("Passport No", "A123"), ("Nomor Paspor", "B456")]

/-- A record whose primary passport key is present but bound to the empty
string, which JS logical-or treats as absent. -/
def emptyPrimaryExample : ExtractedData := [("Passport No", ""), ("Nomor Paspor", "B456")]

/-- The split-transform example record of the spec. -/
def splitExample : ExtractedData := [("Place & Date of Birth", "Jakarta, 1990-01-01")]

/-- A successful item that carries no extraction data. -/
def successNoData : ResultItem :=
  { filename := "f.pdf", status := RStatus.success, data := none, error := none }

/-- A one-item batch whose only row has no digit in any column value. -/
def c5Items : List ResultItem :=
  [{ filename := "a.pdf", status := RStatus.success,
     data := some [("Name", "X")], error := none }]

/-- A batch holding only a failed item. -/
def errorOnlyBatch : List ResultItem :=
  [{ filename := "f.pdf", status := RStatus.error, data := none, error := some "boom" }]

/-- An API response whose counters violate the batch invariant and which
carries extraction data, so the conversion path runs on it. -/
def badResponse : ApiResponse :=
  { success := true, timestamp := "t", total_files := 3, processed_files := 3,
    failed_files := some 1, results := none,
    extraction_data := some [[("Name", "X")]],
    renamed_files := none, download_links := none }

/-! Helper lemmas about JS object lookup and the row object. -/

lemma jsGet_nil (c : String) : jsGet ([] : Row) c = none := rfl

lemma jsGet_cons (k v : String) (t : Row) (c : String) :
    jsGet ((k, v) :: t) c = if k == c then some v else jsGet t c := by
  unfold jsGet
  rw [List.find?_cons]
  cases h : (k == c) <;> simp [h]

lemma jsGet_append (l₁ l₂ : Row) (c : String) :
    jsGet (l₁ ++ l₂) c = (jsGet l₁ c).or (jsGet l₂ c) := by
  unfold jsGet
  rw [List.find?_append]
  cases List.find? (fun p => p.1 == c) l₁ <;> simp

lemma jsGet_rowOf (i : Nat) (fn : String) (d : ExtractedData) (c : String)
    (h1 : c ≠ "index") (h2 : c ≠ "filename") :
    jsGet (rowOf i fn d) c = jsGet d c := by
  unfold rowOf
  rw [jsGet_append, jsGet_append]
  have e1 : jsGet (if d.any (fun p => p.1 == "index") then []
      else [("index", toString i)]) c = none := by
    split <;> simp [jsGet_cons, jsGet_nil, beq_iff_eq, Ne.symm h1]
  have e2 : jsGet (if d.any (fun p => p.1 == "filename") then []
      else [("filename", fn)]) c = none := by
    split <;> simp [jsGet_cons, jsGet_nil, beq_iff_eq, Ne.symm h2]
  rw [e1, e2]
  simp

lemma resolveColumns_not_special (dt : String) :
    ∀ c ∈ resolveColumns dt, c ≠ "index" ∧ c ≠ "filename" := by
  unfold resolveColumns
  split_ifs <;> decide

/-- C3: resolveColumns is total and deterministic: for every document-type
tag it returns a non-empty column list, and an unrecognized tag falls back
to the default generic profile of seven columns. -/
theorem claim_C3 (dt : String) :
    resolveColumns dt ≠ [] ∧ (dt ∉ knownTags → resolveColumns dt = defaultColumns) := by
  unfold resolveColumns
  split_ifs with h1 h2 h3 h4 h5
  · exact ⟨by simp, fun hk => absurd (by simp [knownTags, h1]) hk⟩
  · exact ⟨by simp, fun hk => absurd (by simp [knownTags, h2]) hk⟩
  · refine ⟨by simp, fun hk => absurd ?_ hk⟩
    rcases h3 with rfl | rfl <;> simp [knownTags]
  · exact ⟨by simp, fun hk => absurd (by simp [knownTags, h4]) hk⟩
  · exact ⟨by simp, fun hk => absurd (by simp [knownTags, h5]) hk⟩
  · exact ⟨by simp [defaultColumns], fun _ => rfl⟩

/-- Witness for C3 at the unrecognized tag XYZ. -/
theorem claim_C3_witness :
    resolveColumns "XYZ" ≠ [] ∧ resolveColumns "XYZ" = defaultColumns :=
  ⟨(claim_C3 "XYZ").1, (claim_C3 "XYZ").2 (by decide)⟩

/-- C4: for a record with only the combined birth field, the export record
splits it on the comma into the place and the trimmed date. -/
theorem claim_C4 :
    jsGet (exportRecord "EVLN" "doc.pdf" 1 splitExample) "Place of Birth" = some "Jakarta" ∧
    jsGet (exportRecord "EVLN" "doc.pdf" 1 splitExample) "Date of Birth" = some "1990-01-01" := by
  decide

/-- C10: ITAS and ITK share one column profile, so the same record projects
to the same displayed row mapping under either tag. -/
theorem claim_C10 :
    resolveColumns "ITAS" = resolveColumns "ITK" ∧
      ∀ (i : Nat) (fn : String) (d : ExtractedData),
        projectRow i fn d "ITAS" = projectRow i fn d "ITK" := by
  have h : resolveColumns "ITAS" = resolveColumns "ITK" := by decide
  exact ⟨h, fun i fn d => by unfold projectRow; rw [h]⟩

/-- C6 amended: the export-record count equals the count of items that have
status success and carry data, not the count of all success items. -/
theorem claim_C6 (items : List ResultItem) (dt : String) :
    (buildExportRecords items dt).length = (items.filter succWithData).length := by
  unfold buildExportRecords
  rw [List.length_map, List.enum_length]

/-- Counterexample to C6 as stated: a success item without attached data is
counted by the claim but produces no export record. -/
theorem claim_C6_counterexample :
    (buildExportRecords [successNoData] "EVLN").length ≠
      ([successNoData].filter (fun r => r.status == RStatus.success)).length := by
  decide

/-- C8: a batch with no successful item carrying data yields the CSV with an
empty header row and no data rows, and no headers from the profile. -/
theorem claim_C8 (items : List ResultItem) (dt : String)
    (h : ∀ r ∈ items, succWithData r = false) :
    downloadAsExcelCsv items dt = "" ∧ csvHeaders (buildExportRecords items dt) = [] := by
  have hf : items.filter succWithData = [] := by
    rw [List.filter_eq_nil_iff]
    intro a ha
    simp [h a ha]
  have hb : buildExportRecords items dt = [] := by
    unfold buildExportRecords
    rw [hf]
    rfl
  constructor
  · unfold downloadAsExcelCsv
    rw [hb]
    rfl
  · rw [hb]
    rfl

/-- Witness for C8 on a batch holding one failed item. -/
theorem claim_C8_witness :
    downloadAsExcelCsv errorOnlyBatch "SKTT" = "" ∧
      csvHeaders (buildExportRecords errorOnlyBatch "SKTT") = [] :=
  claim_C8 errorOnlyBatch "SKTT" (by decide)

/-- C9 amended: the result-storing conversion step alters only the items
sequence, so the three counters are unchanged and the batch invariant holds
of the stored response exactly when it holds of the API response; the
client itself never enforces the invariant. -/
theorem claim_C9 (data : ApiResponse) (fns : List String) (flag : Bool) :
    (storeResults data fns flag).total_files = data.total_files ∧
    (storeResults data fns flag).processed_files = data.processed_files ∧
    (storeResults data fns flag).failed_files = data.failed_files ∧
    (batchInvariant (storeResults data fns flag) ↔ batchInvariant data) := by
  unfold storeResults
  cases h : data.extraction_data <;> cases flag <;> simp [batchInvariant]

/-- Counterexample to C9 as stated: a response with counters three plus one
over a total of three is accepted, converted and held unchanged, violating
the claimed invariant. -/
theorem claim_C9_counterexample :
    (storeResults badResponse [] false).results.isSome = true ∧
    ¬ batchInvariant (storeResults badResponse [] false) := by
  constructor
  · decide
  · unfold batchInvariant
    decide

/-- C5 amended: the search filter with the empty query is the identity; with
any query it is a stable sublist of the input containing exactly the rows
some field value of which, the stringified numeric index included, contains
the query case-insensitively. -/
theorem claim_C5 (rows : List Row) (q : String) (r : Row) :
    filterBySearch rows "" = rows ∧
    (filterBySearch rows q).Sublist rows ∧
    (r ∈ filterBySearch rows q ↔ r ∈ rows ∧ rowMatches q r = true) := by
  refine ⟨?_, ?_, ?_⟩
  · unfold filterBySearch
    rw [List.filter_eq_self]
    intro a _
    simp [rowMatches]
  · unfold filterBySearch
    exact List.filter_sublist rows
  · unfold filterBySearch
    exact List.mem_filter

/-- Counterexample to C5 as stated: the query 0 matches only the numeric
row index of the single row, which the code keeps and the spec-worded
filter, matching columns and filename only, drops. -/
theorem claim_C5_counterexample :
    filterBySearch (getTableData c5Items) "0" ≠
      specFilterBySearch (getTableData c5Items) "0" := by
  decide

/-- C1 amended: whenever the primary key of an export column's chain is
bound to a non-empty value, that value is emitted in the export record, and
a displayed cell always shows the record's non-empty value at the column
name itself; a primary key bound to the empty string is treated as absent
by the JS logical-or chain, so the fallback wins instead. -/
theorem claim_C1 :
    (∀ (dt fn : String) (no : Nat) (d : ExtractedData) (c v : String),
        c ∈ genericDataColumns → jsGet d (genericPrimary c) = some v → v ≠ "" →
        jsGet (genericExportRecord dt fn no d) c = some v) ∧
    (∀ (i : Nat) (fn : String) (d : ExtractedData) (c v : String),
        c ≠ "index" → c ≠ "filename" → jsGet d c = some v → v ≠ "" →
        displayValue (rowOf i fn d) c = v) := by
  constructor
  · intro dt fn no d c v hc hp hv
    simp only [genericDataColumns, List.mem_cons, List.not_mem_nil, or_false] at hc
    rcases hc with rfl|rfl|rfl|rfl|rfl|rfl|rfl|rfl|rfl|rfl|rfl|rfl|rfl|rfl|rfl|rfl <;>
      simp [genericPrimary, genericCandidates] at hp <;>
      simp [genericExportRecord, jsGet_cons, hp, orF, hv]
  · intro i fn d c v h1 h2 hd hv
    rw [displayValue, jsGet_rowOf i fn d c h1 h2, hd]
    simp [orF, hv]

/-- Witness for C1 on the EVLN example record of the spec. -/
theorem claim_C1_witness :
    jsGet (genericExportRecord "EVLN" "a.pdf" 1 evlnExample) "Passport No" = some "A123" ∧
    displayValue (rowOf 0 "a.pdf" evlnExample) "Passport No" = "A123" :=
  ⟨claim_C1.1 "EVLN" "a.pdf" 1 evlnExample "Passport No" "A123"
      (by decide) (by decide) (by decide),
    claim_C1.2 0 "a.pdf" evlnExample "Passport No" "A123"
      (by decide) (by decide) (by decide) (by decide)⟩

/-- Counterexample to C1 as stated: a record containing the primary key
bound to the empty string and a fallback key emits the fallback value in
the export and the dash placeholder in the display, not the primary value. -/
theorem claim_C1_counterexample :
    jsGet emptyPrimaryExample "Passport No" = some "" ∧
    jsGet (genericExportRecord "EVLN" "a.pdf" 1 emptyPrimaryExample) "Passport No" =
      some "B456" ∧
    displayValue (rowOf 0 "a.pdf" emptyPrimaryExample) "Passport No" = "-" := by
  decide

/-- C2 amended: a displayed cell whose column key is absent from the record
shows the dash placeholder for every document type; an export field other
than No, Filename and Document Type whose candidate keys are all absent
yields the empty string in both the generic and the DKPTKA record; the
Document Type export field instead falls back to the selected tag. -/
theorem claim_C2 :
    (∀ (dt : String) (i : Nat) (fn : String) (d : ExtractedData) (c : String),
        c ∈ resolveColumns dt → jsGet d c = none →
        displayValue (rowOf i fn d) c = "-") ∧
    (∀ (dt fn : String) (no : Nat) (d : ExtractedData) (c : String),
        c ∈ genericDataColumns → (∀ k ∈ genericCandidates c, jsGet d k = none) →
        jsGet (genericExportRecord dt fn no d) c = some "") ∧
    (∀ (dt fn : String) (no : Nat) (d : ExtractedData) (c : String),
        c ∈ dkptkaDataColumns → jsGet d c = none →
        jsGet (dkptkaExportRecord dt fn no d) c = some "") := by
  refine ⟨?_, ?_, ?_⟩
  · intro dt i fn d c hc hnone
    obtain ⟨h1, h2⟩ := resolveColumns_not_special dt c hc
    rw [displayValue, jsGet_rowOf i fn d c h1 h2, hnone]
    rfl
  · intro dt fn no d c hc hk
    simp only [genericDataColumns, List.mem_cons, List.not_mem_nil, or_false] at hc
    rcases hc with rfl|rfl|rfl|rfl|rfl|rfl|rfl|rfl|rfl|rfl|rfl|rfl|rfl|rfl|rfl|rfl <;>
      simp [genericCandidates] at hk <;>
      simp [genericExportRecord, jsGet_cons, orF, hk]
  · intro dt fn no d c hc hnone
    simp only [dkptkaDataColumns, List.mem_cons, List.not_mem_nil, or_false] at hc
    rcases hc with rfl|rfl|rfl|rfl|rfl|rfl|rfl|rfl|rfl|rfl|rfl|rfl <;>
      simp [dkptkaExportRecord, jsGet_cons, orF, hnone]

/-- Witness for C2 on the empty record. -/
theorem claim_C2_witness :
    displayValue (rowOf 0 "a.pdf" ([] : ExtractedData)) "Name" = "-" ∧
    jsGet (genericExportRecord "EVLN" "a.pdf" 1 ([] : ExtractedData)) "Name" = some "" ∧
    jsGet (dkptkaExportRecord "DKPTKA" "a.pdf" 1 ([] : ExtractedData)) "Email" = some "" :=
  ⟨claim_C2.1 "EVLN" 0 "a.pdf" [] "Name" (by decide) (by decide),
    claim_C2.2.1 "EVLN" "a.pdf" 1 [] "Name" (by decide) (by decide),
    claim_C2.2.2 "DKPTKA" "a.pdf" 1 [] "Email" (by decide) (by decide)⟩

/-- Counterexample to C2 as stated: with the Jenis Dokumen key absent, the
Document Type export field emits the selected tag, not the empty string. -/
theorem claim_C2_counterexample :
    jsGet ([] : ExtractedData) "Jenis Dokumen" = none ∧
    jsGet (genericExportRecord "EVLN" "a.pdf" 1 ([] : ExtractedData)) "Document Type" =
      some "EVLN" ∧
    some "EVLN" ≠ some ("" : String) := by
  decide

/-! Helper lemmas for the download-retry development. -/

lemma containsSub_of_parts (s pat : String) (t₁ t₂ : List Char)
    (h : s.data = t₁ ++ (pat.data ++ t₂)) : containsSub s pat = true := by
  unfold containsSub
  rw [List.any_eq_true]
  refine ⟨t₁.length, ?_, ?_⟩
  · rw [List.mem_range, h]
    simp only [List.length_append]
    omega
  · rw [h, List.drop_left]
    exact List.isPrefixOf_iff_prefix.mpr (List.prefix_append pat.data t₂)

lemma retryable_httpMsg_404 (body : String) : retryable (httpMsg 404 body) = true := by
  have h4 : toString (404 : Nat) = "404" := by decide
  have h : (httpMsg 404 body).data =
      ("HTTP ").data ++ (("404").data ++ ((": ").data ++ body.data)) := by
    unfold httpMsg
    rw [h4]
    simp [String.data_append]
  have hc := containsSub_of_parts (httpMsg 404 body) "404"
    ("HTTP ").data ((": ").data ++ body.data) h
  unfold retryable
  rw [hc]
  rfl

lemma runDownload_ok_pos (e : String) (o : Nat → FetchOutcome) (rc size : Nat)
    (ho : o rc = FetchOutcome.ok size) (hs : size ≠ 0) :
    runDownload e o rc = (DownloadResult.success size, 1, []) := by
  conv_lhs => unfold runDownload
  rw [ho]
  dsimp only
  rw [if_neg hs]

lemma runDownload_ok_zero (e : String) (o : Nat → FetchOutcome) (rc size : Nat)
    (ho : o rc = FetchOutcome.ok size) (hs : size = 0) (hre : retryable e = false) :
    runDownload e o rc = (DownloadResult.failure e, 1, []) := by
  conv_lhs => unfold runDownload
  rw [ho]
  dsimp only
  rw [if_pos hs]
  by_cases h : rc < 2
  · rw [dif_pos h, if_neg (by simp [hre])]
  · rw [dif_neg h]

lemma runDownload_http_stop (e : String) (o : Nat → FetchOutcome) (rc status : Nat)
    (body : String) (ho : o rc = FetchOutcome.httpError status body) (h : ¬ rc < 2) :
    runDownload e o rc = (DownloadResult.failure (httpMsg status body), 1, []) := by
  conv_lhs => unfold runDownload
  rw [ho]
  dsimp only
  rw [dif_neg h]

lemma runDownload_http_404 (e : String) (o : Nat → FetchOutcome) (rc : Nat)
    (body : String) (ho : o rc = FetchOutcome.httpError 404 body) (h : rc < 2) :
    runDownload e o rc =
      ((runDownload e o (rc + 1)).1, (runDownload e o (rc + 1)).2.1 + 1,
        3000 :: (runDownload e o (rc + 1)).2.2) := by
  conv_lhs => unfold runDownload
  rw [ho]
  dsimp only
  rw [dif_pos h, if_pos rfl]

lemma runDownload_http_retry (e : String) (o : Nat → FetchOutcome) (rc status : Nat)
    (body : String) (ho : o rc = FetchOutcome.httpError status body) (h : rc < 2)
    (hs : status ≠ 404) (hr : retryable (httpMsg status body) = true) :
    runDownload e o rc =
      ((runDownload e o (rc + 1)).1, (runDownload e o (rc + 1)).2.1 + 1,
        2000 :: (runDownload e o (rc + 1)).2.2) := by
  conv_lhs => unfold runDownload
  rw [ho]
  dsimp only
  rw [dif_pos h, if_neg hs, if_pos hr]

lemma runDownload_http_fail (e : String) (o : Nat → FetchOutcome) (rc status : Nat)
    (body : String) (ho : o rc = FetchOutcome.httpError status body) (h : rc < 2)
    (hs : status ≠ 404) (hr : retryable (httpMsg status body) = false) :
    runDownload e o rc = (DownloadResult.failure (httpMsg status body), 1, []) := by
  conv_lhs => unfold runDownload
  rw [ho]
  dsimp only
  rw [dif_pos h, if_neg hs, if_neg (by simp [hr])]

lemma runDownload_abort (e : String) (o : Nat → FetchOutcome) (rc : Nat)
    (ho : o rc = FetchOutcome.abortError) :
    runDownload e o rc = (DownloadResult.failure timeoutMsg, 1, []) := by
  conv_lhs => unfold runDownload
  rw [ho]
  dsimp only
  by_cases h : rc < 2
  · rw [dif_pos h, if_neg (by decide)]
  · rw [dif_neg h]

lemma runDownload_net_retry (e : String) (o : Nat → FetchOutcome) (rc : Nat)
    (ho : o rc = FetchOutcome.networkError) (h : rc < 2) :
    runDownload e o rc =
      ((runDownload e o (rc + 1)).1, (runDownload e o (rc + 1)).2.1 + 1,
        2000 :: (runDownload e o (rc + 1)).2.2) := by
  conv_lhs => unfold runDownload
  rw [ho]
  dsimp only
  rw [dif_pos h, if_pos (by decide)]

lemma runDownload_net_stop (e : String) (o : Nat → FetchOutcome) (rc : Nat)
    (ho : o rc = FetchOutcome.networkError) (h : ¬ rc < 2) :
    runDownload e o rc = (DownloadResult.failure networkMsg, 1, []) := by
  conv_lhs => unfold runDownload
  rw [ho]
  dsimp only
  rw [dif_neg h]

lemma specFrom_of_stop (e : String) (o : Nat → FetchOutcome) (rc : Nat)
    (res : DownloadResult) (hrc : rc ≤ 2)
    (h : runDownload e o rc = (res, 1, [])) : SpecFrom e o rc := by
  unfold SpecFrom
  rw [h]
  dsimp only
  exact ⟨by omega, rfl, by simp, fun i hi hlt => absurd hlt (by omega)⟩

lemma specFrom_of_retry (e : String) (o : Nat → FetchOutcome) (rc del : Nat)
    (hdel : del = 2000 ∨ del = 3000)
    (hel : retryEligible e (o rc) = true)
    (hstep : runDownload e o rc =
      ((runDownload e o (rc + 1)).1, (runDownload e o (rc + 1)).2.1 + 1,
        del :: (runDownload e o (rc + 1)).2.2))
    (ih : SpecFrom e o (rc + 1)) : SpecFrom e o rc := by
  obtain ⟨ih1, ih2, ih3, ih4⟩ := ih
  unfold SpecFrom
  rw [hstep]
  dsimp only
  refine ⟨by omega, ?_, ?_, ?_⟩
  · simp only [List.length_cons]
    omega
  · intro d hd
    rcases List.mem_cons.mp hd with rfl | hd2
    · exact hdel
    · exact ih3 d hd2
  · intro i hi hlt
    rcases Nat.eq_or_lt_of_le hi with rfl | hgt
    · exact hel
    · exact ih4 i (by omega) (by omega)

lemma specFrom_last (e : String) (o : Nat → FetchOutcome)
    (hre : retryable e = false) : SpecFrom e o 2 := by
  cases ho : o 2 with
  | ok size =>
    by_cases hs : size = 0
    · exact specFrom_of_stop e o 2 _ (by omega) (runDownload_ok_zero e o 2 size ho hs hre)
    · exact specFrom_of_stop e o 2 _ (by omega) (runDownload_ok_pos e o 2 size ho hs)
  | httpError status body =>
    exact specFrom_of_stop e o 2 _ (by omega)
      (runDownload_http_stop e o 2 status body ho (by omega))
  | abortError =>
    exact specFrom_of_stop e o 2 _ (by omega) (runDownload_abort e o 2 ho)
  | networkError =>
    exact specFrom_of_stop e o 2 _ (by omega) (runDownload_net_stop e o 2 ho (by omega))

lemma specFrom_descent (e : String) (o : Nat → FetchOutcome) (rc : Nat)
    (hre : retryable e = false) (hrc : rc < 2) (ih : SpecFrom e o (rc + 1)) :
    SpecFrom e o rc := by
  cases ho : o rc with
  | ok size =>
    by_cases hs : size = 0
    · exact specFrom_of_stop e o rc _ (by omega) (runDownload_ok_zero e o rc size ho hs hre)
    · exact specFrom_of_stop e o rc _ (by omega) (runDownload_ok_pos e o rc size ho hs)
  | httpError status body =>
    by_cases hs : status = 404
    · subst hs
      refine specFrom_of_retry e o rc 3000 (Or.inr rfl) ?_
        (runDownload_http_404 e o rc body ho hrc) ih
      rw [ho]
      unfold retryEligible
      exact retryable_httpMsg_404 body
    · by_cases hr : retryable (httpMsg status body) = true
      · refine specFrom_of_retry e o rc 2000 (Or.inl rfl) ?_
          (runDownload_http_retry e o rc status body ho hrc hs hr) ih
        rw [ho]
        unfold retryEligible
        exact hr
      · exact specFrom_of_stop e o rc _ (by omega)
          (runDownload_http_fail e o rc status body ho hrc hs (by simpa using hr))
  | abortError =>
    exact specFrom_of_stop e o rc _ (by omega) (runDownload_abort e o rc ho)
  | networkError =>
    refine specFrom_of_retry e o rc 2000 (Or.inl rfl) ?_
      (runDownload_net_retry e o rc ho hrc) ih
    rw [ho]
    unfold retryEligible
    exact (by decide : retryable networkMsg = true)

lemma specFrom_zero (e : String) (o : Nat → FetchOutcome)
    (hre : retryable e = false) : SpecFrom e o 0 :=
  specFrom_descent e o 0 hre (by omega)
    (specFrom_descent e o 1 hre (by omega) (specFrom_last e o hre))

/-- C7: for every sequence of attempt outcomes, both artifact downloads make
at most three fetch attempts in total, sleep one of the two fixed delays
between consecutive attempts, retry only after an outcome the source
classifies as not-found or network-class, and otherwise surface the failure
as terminal. -/
theorem claim_C7 (outcomes : Nat → FetchOutcome) :
    RetrySpec zipEmptyMsg outcomes (downloadRenamedZip outcomes) ∧
    RetrySpec excelEmptyMsg outcomes (downloadExcelFromBackend outcomes) := by
  constructor
  · obtain ⟨h1, h2, h3, h4⟩ := specFrom_zero zipEmptyMsg outcomes (by decide)
    unfold downloadRenamedZip RetrySpec
    exact ⟨by omega, h2, h3, fun i hlt => h4 i (Nat.zero_le i) (by omega)⟩
  · obtain ⟨h1, h2, h3, h4⟩ := specFrom_zero excelEmptyMsg outcomes (by decide)
    unfold downloadExcelFromBackend RetrySpec
    exact ⟨by omega, h2, h3, fun i hlt => h4 i (Nat.zero_le i) (by omega)⟩

/-- Witness for C7 on a run whose every attempt fails at the transport
level. -/
theorem claim_C7_witness :
    RetrySpec zipEmptyMsg (fun _ => FetchOutcome.networkError)
      (downloadRenamedZip (fun _ => FetchOutcome.networkError)) :=
  (claim_C7 (fun _ => FetchOutcome.networkError)).1
